import Mathlib

/-!
Verification of the gift-recommendation pipeline (Gifting-Websearch).

The repository is a Python Streamlit app (`app.py`) driving a two-stage
concurrent pipeline: stage 1 resolves each product idea to a retail link via
`serpcalls.get_product_links`; stage 2 extracts page metadata via
`llmextract.extract_product_sync`.  Preceding stages
(`openai_calls.parse_gift_request`, `perplexity_calls.generate_product_ideas`,
`openai_calls.format_perplexity_output`) produce the idea list.

This file shallowly embeds those functions: Python dicts become structures or
association lists, Python exceptions become `Except`, thread-pool completion
order becomes an explicit index list, and external collaborators become
function parameters.
-/

namespace Gifting

/-- Python exceptions that the embedded code can raise. -/
inductive PyErr where
  | keyErr (k : String)
  | exc (msg : String)
deriving DecidableEq, Repr

/-- JSON-like Python values (results of `json.loads`, dict fields, ...). -/
inductive JVal where
  | jstr (s : String)
  | jnum (n : Int)
  | jbool (b : Bool)
  | jnull
  | jlist (xs : List JVal)
  | jobj (fields : List (String × JVal))

/-- Key lookup in an embedded Python dict (association list), leftmost wins. -/
def jlookup (k : String) : List (String × JVal) → Option JVal
  | [] => none
  | (k', v) :: rest => if k' = k then some v else jlookup k rest

/- ### serpcalls.get_product_links -/

/-- The query parameters `get_product_links` sends to the search collaborator
(`serpcalls.py` lines 5-14). -/
structure SerpParams where
  apiKey : String
  engine : String
  q : String
  location : String
  googleDomain : String
  gl : String
  hl : String
  num : Nat
deriving DecidableEq, Repr

/-- The `params` dict built by `get_product_links` for a query
(`serpcalls.py` lines 5-14): `num` is 1 and `q` is the query string. -/
def serpRequestParams (query : String) : SerpParams :=
  { apiKey := "496c86a4cd9773be0204caaf0a304d2533a895b2150fbb5aa7a72cdc738dbbb7"
    engine := "google"
    q := query
    location := "India"
    googleDomain := "google.co.in"
    gl := "in"
    hl := "en"
    num := 1 }

/-- One entry of `data["organic_results"]`; the `"link"` key may be absent. -/
structure OrganicResult where
  link : Option String
deriving DecidableEq, Repr

/-- The parsed search response; the `"organic_results"` key may be absent
(absence makes the subscript raise `KeyError`). -/
structure SerpData where
  organicResults : Option (List OrganicResult)
deriving DecidableEq, Repr

/-- `serpcalls.get_product_links`, lines 21-26, applied to the parsed response:
`if data["organic_results"]: return data["organic_results"][0]["link"]
else: return None`.  An empty list is falsy, so it returns `None`; a missing
key raises `KeyError`. -/
def get_product_links (data : SerpData) : Except PyErr (Option String) :=
  match data.organicResults with
  | none => .error (.keyErr "organic_results")
  | some [] => .ok none
  | some (r :: _) =>
    match r.link with
    | none => .error (.keyErr "link")
    | some l => .ok (some l)

/- ### The candidate record of app.py -/

/-- Values that `app.py` stores under `product["metadata"]` (lines 114-125):
either the raw extracted data dict, or the literal failure dict built in the
`except` branch. -/
inductive MetaVal where
  | extracted (data : JVal)
  | failDict (err : String) (url : Option String)

/-- One entry of `results["products"]` (`app.py` lines 76-80).  The dict starts
as `{"name": ...}`; the `"link"` and `"metadata"` keys are added later, so each
is doubly optional: the outer `Option` is key presence, the inner `Option` is
the Python value possibly being `None`. -/
structure ProductItem where
  name : String
  link : Option (Option String) := none
  metadata : Option (Option MetaVal) := none

/- ### The two fan-out stages of app.py -/

/-- In-place update of the element at index `i` of a list, as Python's
mutation of one product dict inside `results["products"]`. -/
def updAt : List α → Nat → (α → α) → List α
  | [], _, _ => []
  | a :: as, 0, f => f a :: as
  | a :: as, n + 1, f => a :: updAt as n f

/-- `results["products"]` as first built (`app.py` lines 76-80): one dict
`{"name": product.get("name", "")}` per entry of
`formatted_output["product_ideas"]`, in order.  An idea dict may lack the
`"name"` key, in which case `.get` supplies `""`. -/
structure RawIdea where
  name : Option String

/-- The list construction of `app.py` lines 76-80. -/
def mkProducts (ideas : List RawIdea) : List ProductItem :=
  ideas.map (fun d => { name := d.name.getD "" })

/-- Stage 1 collection loop (`app.py` lines 88-93).  `res i` is what
`future.result()` does for the product at index `i`: return the resolver's
value, or re-raise its exception.  `ord` is the order in which `as_completed`
yields the futures.  There is no `try`/`except` in this loop, so the first
erroring `future.result()` propagates and aborts the run. -/
def stage1Loop (res : Nat → Except PyErr (Option String)) :
    List ProductItem → List Nat → Except PyErr (List ProductItem)
  | ps, [] => .ok ps
  | ps, i :: rest =>
    match res i with
    | .error e => .error e
    | .ok v => stage1Loop res (updAt ps i (fun p => { p with link := some v })) rest

/-- What the dict returned by `extract_product_sync` (or by the no-link branch
of the stage-2 lambda) contains: keys `"success"`, `"data"`, `"error"`,
`"url"`, each of the last three possibly absent. -/
structure WRes where
  success : Bool
  data : Option JVal := none
  error : Option String := none
  url : Option String := none

/-- The literal `{"success": False, "error": "No link available"}` of
`app.py` line 106. -/
def noLinkRes : WRes := { success := false, error := some "No link available" }

/-- Python truthiness of the `"link"` entry as tested by the stage-2 lambda
(`app.py` line 106): the key must be present, non-`None` and non-empty. -/
def linkTruthy (p : ProductItem) : Bool :=
  match p.link with
  | some (some l) => l ≠ ""
  | _ => false

/-- The stage-2 submit lambda (`app.py` lines 101-107): call the extraction
collaborator on `p["link"]` only when that entry is present and truthy,
otherwise return the no-link failure dict without any external call.  The
second component records the URLs the collaborator was actually invoked on. -/
def stage2Work (extCollab : String → WRes) (p : ProductItem) : WRes × List String :=
  match p.link with
  | some (some l) => if l ≠ "" then (extCollab l, [l]) else (noLinkRes, [])
  | _ => (noLinkRes, [])

/-- What `future.result()` does for one stage-2 future: return the lambda's
dict, or raise (only possible if the wrapper itself fails, since
`extract_product_sync` catches its own exceptions). -/
inductive ExtOutcome where
  | val (w : WRes)
  | raise (e : String)

/-- One iteration of the stage-2 collection loop (`app.py` lines 112-125):
on a returned dict, `product["metadata"]` is set to the raw `"data"` when
`"success"` is truthy and to `None` otherwise; on a raised exception the
`except` branch stores the literal failure dict.  (A truthy `"success"` with
a missing `"data"` key would raise `KeyError` inside the `try`, landing in
the same `except` branch.) -/
def collectMeta (p : ProductItem) (o : ExtOutcome) : ProductItem :=
  match o with
  | .raise e =>
    let fd : MetaVal := .failDict ("Extraction failed: " ++ e) (p.link.getD (some ""))
    { p with metadata := some (some fd) }
  | .val w =>
    if w.success then
      match w.data with
      | some d => { p with metadata := some (some (.extracted d)) }
      | none =>
        let fd : MetaVal := .failDict "Extraction failed: 'data'" (p.link.getD (some ""))
        { p with metadata := some (some fd) }
    else { p with metadata := some none }

/-- Stage-2 outcome for index `i`: `raise2` injects a wrapper-level exception,
otherwise the future holds the value the submit lambda computed from the
product as it stood after stage 1 (`ps`). -/
def stage2Outcome (extCollab : String → WRes) (raise2 : Nat → Option String)
    (ps : List ProductItem) (i : Nat) : ExtOutcome :=
  match raise2 i with
  | some e => .raise e
  | none => .val (stage2Work extCollab ((ps.getD i { name := "" }))).1

/-- Stage 2 collection loop (`app.py` lines 112-128): total — every exception
is caught, so it never aborts. -/
def stage2Loop (extCollab : String → WRes) (raise2 : Nat → Option String)
    (ps : List ProductItem) (ord : List Nat) : List ProductItem :=
  ord.foldl (fun acc i => updAt acc i (fun p => collectMeta p (stage2Outcome extCollab raise2 ps i))) ps

/-- The candidate pipeline of `app.py` lines 76-130: build the products list,
run the stage-1 fan-out (which aborts on the first uncaught resolver
exception), then the stage-2 fan-out (which cannot abort). -/
def runPipeline (ideas : List RawIdea) (res1 : Nat → Except PyErr (Option String))
    (extCollab : String → WRes) (raise2 : Nat → Option String)
    (ord1 ord2 : List Nat) : Except PyErr (List ProductItem) :=
  match stage1Loop res1 (mkProducts ideas) ord1 with
  | .error e => .error e
  | .ok ps1 => .ok (stage2Loop extCollab raise2 ps1 ord2)

/- ### The bounded worker pool (`ThreadPoolExecutor(max_workers=10)`) -/

/-- The `max_workers=10` argument of both stage executors
(`app.py` lines 85 and 98). -/
def stageMaxWorkers : Nat := 10

/-- A thread-pool state: items submitted but not yet picked up, and one slot
per worker thread (`some x` while the worker executes item `x`). -/
structure PoolState (α : Type) where
  queue : List α
  workers : List (Option α)

/-- The number of in-flight work items: busy worker slots. -/
def PoolState.inFlight (s : PoolState α) : Nat :=
  (s.workers.filter Option.isSome).length

/-- Transitions of `ThreadPoolExecutor`: an idle worker picks up the next
queued item, or a busy worker finishes its item.  Work executes only on one
of the fixed worker threads. -/
inductive PoolStep : PoolState α → PoolState α → Prop where
  | start (s : PoolState α) (i : Nat) (x : α) (q' : List α)
      (hq : s.queue = x :: q') (hi : s.workers.get? i = some none) :
      PoolStep s ⟨q', s.workers.set i (some x)⟩
  | finish (s : PoolState α) (i : Nat) (x : α)
      (hi : s.workers.get? i = some (some x)) :
      PoolStep s ⟨s.queue, s.workers.set i none⟩

/-- The pool right after `executor.submit` ran for every item: all items
queued, all `stageMaxWorkers` workers idle. -/
def initPool (items : List α) : PoolState α :=
  ⟨items, List.replicate stageMaxWorkers none⟩

/-- States a pool run can pass through. -/
def PoolReachable (s t : PoolState α) : Prop :=
  Relation.ReflTransGen PoolStep s t

/- ### Python `in`, and the batch-fatal gates of app.py -/

/-- `startsWithPat pat l`: `l` begins with `pat`. -/
def startsWithPat : List Char → List Char → Bool
  | [], _ => true
  | _ :: _, [] => false
  | a :: as, b :: bs => a == b && startsWithPat as bs

/-- `hasSubPat pat l`: some suffix of `l` begins with `pat`. -/
def hasSubPat (pat : List Char) : List Char → Bool
  | [] => startsWithPat pat []
  | c :: rest => startsWithPat pat (c :: rest) || hasSubPat pat rest

/-- Python `pat in s` on strings: substring containment. -/
def pyInStr (pat s : String) : Bool := hasSubPat pat.data s.data

/-- Python `k in d` on a dict embedded as an association list. -/
def hasKey (k : String) (d : List (String × JVal)) : Bool :=
  d.any (fun kv => kv.1 == k)

/-- Return value of `generate_product_ideas` (`perplexity_calls.py`): on
success the raw message content string (lines 128-131), on any failure a dict
carrying an `"error"` key (lines 133-146). -/
inductive PerplexityRes where
  | content (s : String)
  | errDict (msg : String)

/-- Whether the idea-generation stage reported an error, per its interface:
only the failure paths return an `"error"` dict. -/
def perplexityReportsError : PerplexityRes → Bool
  | .content _ => false
  | .errDict _ => true

/-- The gate `"error" in perplexity_recommendations` of `app.py` line 64:
Python `in` is key membership on the error dict but substring containment on
the success string. -/
def perplexityAbortCheck : PerplexityRes → Bool
  | .content s => pyInStr "error" s
  | .errDict _ => true

/-- The results of the three stages preceding candidate work, as `app.py`
lines 55-74 sees them: `parse_gift_request` and `format_perplexity_output`
return dicts, `generate_product_ideas` returns a string or an error dict. -/
structure PreStageResults where
  parseRes : List (String × JVal)
  perplexityRes : PerplexityRes
  formatRes : List (String × JVal)

/-- Whether `app.py` aborts (`st.stop()`) before any candidate work begins:
the disjunction of the three gates at lines 57, 64 and 71. -/
def preflightAborts (r : PreStageResults) : Bool :=
  hasKey "error" r.parseRes || perplexityAbortCheck r.perplexityRes ||
    hasKey "error" r.formatRes

/- ### llmextract.extract_product_data -/

/-- Kinds of exception the `try` of `extract_product_data` distinguishes:
`ImportError` has its own handler, everything else hits `except Exception`. -/
inductive ExcKind where
  | importErr
  | otherErr

/-- Behavior of one crawl inside `extract_product_data`: either the
`crawler.arun` result — its `success` flag, the outcome of
`json.loads(result.extracted_content)` (`.error` is a raised
`JSONDecodeError`), and its `error_message` — or an exception raised anywhere
in the `try` block. -/
inductive CrawlOutcome where
  | res (success : Bool) (parsedContent : Except String JVal) (errorMessage : String)
  | raise (k : ExcKind) (msg : String)

/-- `llmextract.extract_product_data`, lines 141-182, as a function of the
crawl outcome.  On success the parsed object is returned raw — first element
if it is a list (empty list is its own failure, with no `"url"` key), the
object itself otherwise; there is no schema validation.  All exceptions are
converted to failure dicts. -/
def extract_product_data (url : String) (outcome : CrawlOutcome) : WRes :=
  match outcome with
  | .raise .importErr m =>
    { success := false, error := some ("Missing dependencies: " ++ m), url := some url }
  | .raise .otherErr m =>
    { success := false, error := some ("Extraction error: " ++ m), url := some url }
  | .res success parsed errMsg =>
    if success then
      match parsed with
      | .error m =>
        { success := false, error := some ("Extraction error: " ++ m), url := some url }
      | .ok (.jlist []) =>
        { success := false, error := some "No products found in extracted data" }
      | .ok (.jlist (x :: _)) => { success := true, data := some x, url := some url }
      | .ok d => { success := true, data := some d, url := some url }
    else
      { success := false, error := some ("Crawling failed: " ++ errMsg), url := some url }

/-- `llmextract.extract_product_sync`, lines 185-205: `asyncio.run` around
`extract_product_data`, returning the same dict. -/
def extract_product_sync (url : String) (outcome : CrawlOutcome) : WRes :=
  extract_product_data url outcome

/-- Field names of the `Product` schema declared with defaults
(`llmextract.py` lines 15-53): empty string, `False`, or empty list. -/
def productDefaultedFields : List String :=
  ["everything_you_need_to_know", "why_we_love_it", "website",
   "delivery_timeline", "image_links", "age_kids", "gender", "price_bracket",
   "cities", "occasion", "style_tags", "personas", "valentines", "baby_shower",
   "anniversaries_weddings", "birthdays", "house_warmings", "festivals",
   "fitness_sports_enthusiast", "aesthete", "minimalist_functional",
   "maximalist", "fashionable", "foodie", "wellness_seeker", "new_parent",
   "teenagers", "working_professionals", "parents", "bride_groom_to_be"]

/-- Field names the `Product` schema requires (`Field(...)`,
`llmextract.py` lines 12-17). -/
def productRequiredFields : List String :=
  ["product", "brand", "product_description", "price"]

/-- Modelled from the spec: the validation step §4.3 claims for successful
extractions — absent in `llmextract.py`, whose success path is only
`json.loads`.  Per the spec's words, a raw object is checked against the
`ProductMetadata` schema and fields absent from the extraction are filled
with their declared defaults rather than invalidating the record. -/
def specValidateRecord (raw : List (String × JVal)) : List (String × JVal) :=
  raw ++ (productDefaultedFields.filter (fun k => ¬ hasKey k raw)).map
    (fun k => (k, if k = "image_links" then JVal.jlist []
      else if k ∈ ["valentines", "baby_shower", "anniversaries_weddings",
        "birthdays", "house_warmings", "festivals", "fitness_sports_enthusiast",
        "aesthete", "minimalist_functional", "maximalist", "fashionable",
        "foodie", "wellness_seeker", "new_parent", "teenagers",
        "working_professionals", "parents", "bride_groom_to_be"]
      then JVal.jbool false else JVal.jstr ""))

/- ### openai_calls.format_perplexity_output price normalization -/

/-- Python exceptions relevant to
`int(float(str(...).replace(...).strip()))`: the `except` clause at
`openai_calls.py` line 268 catches `ValueError` and `TypeError` only, so an
`OverflowError` (from `int()` of an infinite float) escapes to the outer
`except Exception` handler. -/
inductive PyExc where
  | valueErr
  | typeErr
  | overflowErr
deriving DecidableEq, Repr

/-- A double, as `float()` produces it. -/
inductive PyFloat where
  | finite (q : ℚ)
  | posInf
  | negInf
  | nan
deriving DecidableEq, Repr

/-- Python whitespace, as stripped by `str.strip()` and by `float()`. -/
def isPyWs (c : Char) : Bool :=
  c == ' ' || c == '\t' || c == '\n' || c == '\x0d' || c == '\x0b' || c == '\x0c'

/-- `str.strip()`. -/
def stripWsChars (l : List Char) : List Char :=
  ((l.dropWhile isPyWs).reverse.dropWhile isPyWs).reverse

/-- `.replace('₹', '').replace(',', '').strip()` of `openai_calls.py`
lines 266-267. -/
def stripPriceChars (s : String) : String :=
  ((s.data.filter (fun c => c != '₹' && c != ',')).dropWhile isPyWs).reverse.dropWhile isPyWs
    |>.reverse |>.asString

/-- Continuation of a digit group after its first digit: further digits, with
single underscores allowed between digits (Python numeric literals). -/
def digitTail : List Char → List Char × List Char
  | [] => ([], [])
  | ['_'] => ([], ['_'])
  | '_' :: c :: cs =>
    if c.isDigit then
      let (ds, r) := digitTail cs
      (c :: ds, r)
    else ([], '_' :: c :: cs)
  | c :: cs =>
    if c.isDigit then
      let (ds, r) := digitTail cs
      (c :: ds, r)
    else ([], c :: cs)

/-- One digit group (`digitpart` of Python's float grammar): at least one
digit, underscores between digits; returns the digits and the rest. -/
def parseDigitGroup : List Char → Option (List Char × List Char)
  | [] => none
  | c :: cs =>
    if c.isDigit then
      let (ds, r) := digitTail cs
      some (c :: ds, r)
    else none

/-- Numeric value of a digit list. -/
def digitsVal (l : List Char) : Nat :=
  l.foldl (fun a c => 10 * a + (c.toNat - '0'.toNat)) 0

/-- Optional exponent suffix `(e|E)[+|-]digitpart` applied to a mantissa;
the remainder must be empty. -/
def applyExponent (q : ℚ) : List Char → Option ℚ
  | [] => some q
  | c :: rest =>
    if c == 'e' || c == 'E' then
      let (sgn, rest2) : Int × List Char :=
        match rest with
        | '+' :: r => (1, r)
        | '-' :: r => (-1, r)
        | r => (1, r)
      match parseDigitGroup rest2 with
      | some (ds, []) => some (q * (10 : ℚ) ^ (sgn * (digitsVal ds : Int)))
      | _ => none
    else none

/-- The unsigned body of Python's float grammar:
`digitpart [. [digitpart]] | . digitpart`, then an optional exponent. -/
def floatBody (l : List Char) : Option ℚ :=
  match parseDigitGroup l with
  | some (ds, rest) =>
    match rest with
    | '.' :: rest2 =>
      match parseDigitGroup rest2 with
      | some (fs, rest3) =>
        applyExponent ((digitsVal ds : ℚ) + (digitsVal fs : ℚ) / (10 : ℚ) ^ fs.length) rest3
      | none => applyExponent (digitsVal ds : ℚ) rest2
    | _ => applyExponent (digitsVal ds : ℚ) rest
  | none =>
    match l with
    | '.' :: rest2 =>
      match parseDigitGroup rest2 with
      | some (fs, rest3) =>
        applyExponent ((digitsVal fs : ℚ) / (10 : ℚ) ^ fs.length) rest3
      | none => none
    | _ => none

/-- `2 ^ 1024`, the first magnitude beyond the double range, written as a
numeral so that proofs can evaluate the comparison directly. -/
def doubleOverflowBound : ℕ :=
  179769313486231590772930519078902473361797697894230657273430081157732675805500963132708477322407536021120113879871393357658789768814416622492847430639474124377767893424865485276302219601246094119453082952085005768838150682342462881473913110540827237163350510684586298239947245938479716304835356329624224137216

/-- Python's `float(s)`: strip whitespace, optional sign, then either the
keywords `inf`/`infinity`/`nan` (case-insensitive) or a decimal numeral.
`.error` is a raised `ValueError`.  Finite values are kept as exact
rationals; magnitudes at least `2 ^ 1024` overflow to an infinity (the true
rounding threshold differs from this one only within one ulp of the largest
double, far above any value these theorems touch). -/
def pyFloatOfString (s : String) : Except Unit PyFloat :=
  let l := stripWsChars s.data
  let (neg, body) : Bool × List Char :=
    match l with
    | '+' :: r => (false, r)
    | '-' :: r => (true, r)
    | r => (false, r)
  let lower := body.map Char.toLower
  if lower = "inf".data ∨ lower = "infinity".data then
    .ok (if neg then .negInf else .posInf)
  else if lower = "nan".data then .ok .nan
  else
    match floatBody body with
    | some q =>
      if ((doubleOverflowBound : ℕ) : ℚ) ≤ q then .ok (if neg then .negInf else .posInf)
      else .ok (.finite (if neg then -q else q))
    | none => .error ()

/-- Truncation toward zero, as `int()` of a finite float. -/
def pyTrunc (q : ℚ) : Int := if 0 ≤ q then q.floor else q.ceil

/-- Python's `int()` on a float: truncation when finite, `OverflowError` on
infinities, `ValueError` on NaN. -/
def pyIntOfFloat : PyFloat → Except PyExc Int
  | .finite q => .ok (pyTrunc q)
  | .posInf => .error .overflowErr
  | .negInf => .error .overflowErr
  | .nan => .error .valueErr

/-- A JSON value found under `"min"`/`"max"` of `estimated_price_range`:
an integer, a finite JSON real, a string, `null`, or a boolean. -/
inductive PriceVal where
  | pnum (n : Int)
  | pdec (q : ℚ)
  | pstr (s : String)
  | pnull
  | pbool (b : Bool)

/-- `str()` of a price value.  (`pdec` never reaches this rendering: see
`coercePrice`.) -/
def pyStrOfPrice : PriceVal → String
  | .pnum n => toString n
  | .pstr s => s
  | .pnull => "None"
  | .pbool b => if b then "True" else "False"
  | .pdec _ => ""

/-- `int(float(str(price_range.get(k, 0)).replace('₹', '').replace(',', '')
.strip()))` of `openai_calls.py` lines 266-267, for one bound.  For a float
value (`pdec`) Python's `str`/`float` round-trip is exact, so the composite
is direct truncation. -/
def coercePrice (v : Option PriceVal) : Except PyExc Int :=
  match v.getD (.pnum 0) with
  | .pdec q => .ok (pyTrunc q)
  | w =>
    match pyFloatOfString (stripPriceChars (pyStrOfPrice w)) with
    | .error () => .error .valueErr
    | .ok f => pyIntOfFloat f

/-- The `try`/`except (ValueError, TypeError)` around the two assignments
(`openai_calls.py` lines 265-270): `min` is converted first; a caught error
from either conversion zeroes both bounds; any other exception — only
`OverflowError` here — propagates. -/
def normalizeRange (mn mx : Option PriceVal) : Except PyExc (Int × Int) :=
  match coercePrice mn with
  | .error .overflowErr => .error .overflowErr
  | .error _ => .ok (0, 0)
  | .ok a =>
    match coercePrice mx with
    | .error .overflowErr => .error .overflowErr
    | .error _ => .ok (0, 0)
    | .ok b => .ok (a, b)

/-- The price bounds of one entry of `parsed_data["product_ideas"]`;
`none` is an absent key (`.get` then defaults). -/
structure IdeaPrices where
  priceMin : Option PriceVal
  priceMax : Option PriceVal

/-- The normalization loop over `parsed_data["product_ideas"]`
(`openai_calls.py` lines 261-271). -/
def formatPricesLoop : List IdeaPrices → Except PyExc (List (Int × Int))
  | [] => .ok []
  | d :: rest =>
    match normalizeRange d.priceMin d.priceMax with
    | .error e => .error e
    | .ok r =>
      match formatPricesLoop rest with
      | .error e => .error e
      | .ok rs => .ok (r :: rs)

/-- `str()` of the exceptions `int()` can raise here. -/
def pyExcMsg : PyExc → String
  | .overflowErr => "cannot convert float infinity to integer"
  | .valueErr => "cannot convert float NaN to integer"
  | .typeErr => "type error"

/-- `format_perplexity_output` around the loop: an exception escaping the
inner handler is caught by `except Exception` (`openai_calls.py` line 295)
and turned into the `{"error": "Unexpected error: ..."}` dict, which
`app.py` line 71 treats as batch-fatal. -/
def formatPriceStage (ideas : List IdeaPrices) : Except String (List (Int × Int)) :=
  match formatPricesLoop ideas with
  | .ok rs => .ok rs
  | .error e => .error ("Unexpected error: " ++ pyExcMsg e)

/-- Reading one field of the raw object a successful extraction returned. -/
def getRawField (w : WRes) (k : String) : Option JVal :=
  match w.data with
  | some (.jobj fs) => jlookup k fs
  | _ => none

/- ### Helper lemmas -/

theorem updAt_length (l : List α) (i : Nat) (f : α → α) :
    (updAt l i f).length = l.length := by
  induction l generalizing i with
  | nil => rfl
  | cons a as ih =>
    cases i with
    | zero => rfl
    | succ n => simpa [updAt] using ih n

theorem updAt_get? (l : List α) (i : Nat) (f : α → α) (j : Nat) :
    (updAt l i f).get? j = if j = i then (l.get? j).map f else l.get? j := by
  induction l generalizing i j with
  | nil => simp [updAt]
  | cons a as ih =>
    cases i with
    | zero =>
      cases j with
      | zero => simp [updAt]
      | succ m => simp [updAt]
    | succ n =>
      cases j with
      | zero => simp [updAt]
      | succ m => simpa [updAt, Nat.succ_inj] using ih n m

theorem collectMeta_name (p : ProductItem) (o : ExtOutcome) :
    (collectMeta p o).name = p.name := by
  rcases o with w | e
  · simp only [collectMeta]
    split
    · rcases h : w.data with _ | d <;> simp
    · rfl
  · rfl

theorem collectMeta_link (p : ProductItem) (o : ExtOutcome) :
    (collectMeta p o).link = p.link := by
  rcases o with w | e
  · simp only [collectMeta]
    split
    · rcases h : w.data with _ | d <;> simp
    · rfl
  · rfl

theorem stage1Loop_ok (res : Nat → Except PyErr (Option String)) (ord : List Nat)
    (ps : List ProductItem) (h : ∀ i ∈ ord, ∃ v, res i = .ok v) :
    ∃ ps', stage1Loop res ps ord = .ok ps' ∧ ps'.length = ps.length ∧
      ∀ j, (ps'.get? j).map ProductItem.name = (ps.get? j).map ProductItem.name := by
  induction ord generalizing ps with
  | nil => exact ⟨ps, rfl, rfl, fun _ => rfl⟩
  | cons i rest ih =>
    obtain ⟨v, hv⟩ := h i (List.mem_cons_self i rest)
    have hrest : ∀ j ∈ rest, ∃ v, res j = .ok v :=
      fun j hj => h j (List.mem_cons_of_mem i hj)
    obtain ⟨ps', hrun, hlen, hname⟩ :=
      ih (updAt ps i (fun p => { p with link := some v })) hrest
    refine ⟨ps', ?_, ?_, ?_⟩
    · simp [stage1Loop, hv, hrun]
    · rw [hlen, updAt_length]
    · intro j
      rw [hname j, updAt_get?]
      split
      · cases ps.get? j <;> rfl
      · rfl

theorem stage2Loop_length (extCollab : String → WRes) (raise2 : Nat → Option String)
    (ps : List ProductItem) (ord : List Nat) :
    (stage2Loop extCollab raise2 ps ord).length = ps.length := by
  suffices h : ∀ acc : List ProductItem,
      (ord.foldl (fun acc i =>
        updAt acc i (fun p => collectMeta p (stage2Outcome extCollab raise2 ps i))) acc).length
        = acc.length from h ps
  induction ord with
  | nil => intro acc; rfl
  | cons i rest ih =>
    intro acc
    rw [List.foldl_cons, ih, updAt_length]

theorem stage2Loop_names (extCollab : String → WRes) (raise2 : Nat → Option String)
    (ps : List ProductItem) (ord : List Nat) (j : Nat) :
    ((stage2Loop extCollab raise2 ps ord).get? j).map ProductItem.name
      = (ps.get? j).map ProductItem.name := by
  suffices h : ∀ acc : List ProductItem,
      ((ord.foldl (fun acc i =>
        updAt acc i (fun p => collectMeta p (stage2Outcome extCollab raise2 ps i))) acc).get? j).map
          ProductItem.name = (acc.get? j).map ProductItem.name from h ps
  induction ord with
  | nil => intro acc; rfl
  | cons i rest ih =>
    intro acc
    rw [List.foldl_cons, ih, updAt_get?]
    split
    · cases acc.get? j <;> simp [collectMeta_name]
    · rfl

theorem poolStep_workers_length {α : Type} {s t : PoolState α} (h : PoolStep s t) :
    t.workers.length = s.workers.length := by
  cases h <;> simp [List.length_set]

theorem poolReachable_workers_length {α : Type} (items : List α) (s : PoolState α)
    (h : PoolReachable (initPool items) s) : s.workers.length = stageMaxWorkers := by
  induction h with
  | refl => simp [initPool]
  | tail _ hstep ih => rw [poolStep_workers_length hstep, ih]

/- ### C8: the link resolver's collaborator contract -/

/-- C8.  `get_product_links` requests exactly one result (`num = 1`) for the
query equal to the candidate name; zero organic results yield `None` (a
legitimate value, not an exception); otherwise the first organic result's
link is returned. -/
theorem resolver_requests_one_and_first_link (query : String) (r : OrganicResult)
    (rest : List OrganicResult) (l : String) (hl : r.link = some l) :
    (serpRequestParams query).num = 1 ∧ (serpRequestParams query).q = query ∧
    get_product_links ⟨some []⟩ = .ok none ∧
    get_product_links ⟨some (r :: rest)⟩ = .ok (some l) := by
  refine ⟨rfl, rfl, rfl, ?_⟩
  simp [get_product_links, hl]

/-- Witness for C8 at a concrete response. -/
theorem resolver_requests_one_and_first_link_witness :
    (serpRequestParams "JBL Flip 6").num = 1 ∧ (serpRequestParams "JBL Flip 6").q = "JBL Flip 6" ∧
    get_product_links ⟨some []⟩ = .ok none ∧
    get_product_links ⟨some ({ link := some "https://a.in/p" } :: [])⟩ = .ok (some "https://a.in/p") :=
  resolver_requests_one_and_first_link "JBL Flip 6" { link := some "https://a.in/p" } [] "https://a.in/p" rfl

/- ### C4: the concurrency cap -/

/-- C4.  In every state a stage's thread pool can reach from the initial
state, the number of in-flight work items never exceeds the configured cap of
`stageMaxWorkers = 10`: work only executes on one of the ten worker slots. -/
theorem pool_inflight_bounded {α : Type} (items : List α) (s : PoolState α)
    (h : PoolReachable (initPool items) s) : s.inFlight ≤ stageMaxWorkers := by
  have hlen := poolReachable_workers_length items s h
  calc s.inFlight ≤ s.workers.length := List.length_filter_le _ _
    _ = stageMaxWorkers := hlen

/-- Witness for C4: a pool over twelve items, after one worker has picked up
the first item. -/
theorem pool_inflight_bounded_witness :
    PoolReachable (initPool [1, 2, 3, 4, 5, 6, 7, 8, 9, 10, 11, 12])
      ⟨[2, 3, 4, 5, 6, 7, 8, 9, 10, 11, 12],
        (List.replicate stageMaxWorkers (none : Option Nat)).set 0 (some 1)⟩ ∧
    PoolState.inFlight (α := Nat)
      ⟨[2, 3, 4, 5, 6, 7, 8, 9, 10, 11, 12],
        (List.replicate stageMaxWorkers (none : Option Nat)).set 0 (some 1)⟩ ≤ stageMaxWorkers := by
  have hstep : PoolStep (initPool [1, 2, 3, 4, 5, 6, 7, 8, 9, 10, 11, 12])
      (⟨[2, 3, 4, 5, 6, 7, 8, 9, 10, 11, 12],
        (List.replicate stageMaxWorkers (none : Option Nat)).set 0 (some 1)⟩ : PoolState Nat) :=
    PoolStep.start _ 0 1 [2, 3, 4, 5, 6, 7, 8, 9, 10, 11, 12] rfl (by decide)
  have hreach := Relation.ReflTransGen.single hstep
  exact ⟨hreach, pool_inflight_bounded _ _ hreach⟩

/- ### C10: the stage-2 link guard -/

/-- C10.  The stage-2 lambda gives candidates whose `"link"` entry is missing,
`None`, or the empty string the literal
`{"success": False, "error": "No link available"}` without any external call,
and every URL the extraction collaborator is invoked on is the candidate's
own present, non-empty link. -/
theorem stage2_guard_no_empty_call (extCollab : String → WRes) (p : ProductItem)
    (h : p.link = none ∨ p.link = some none ∨ p.link = some (some "")) :
    stage2Work extCollab p = (noLinkRes, []) ∧
    noLinkRes = { success := false, data := none, error := some "No link available", url := none } ∧
    ∀ q : ProductItem, ∀ u, u ∈ (stage2Work extCollab q).2 →
      q.link = some (some u) ∧ u ≠ "" := by
  refine ⟨?_, rfl, ?_⟩
  · rcases h with h | h | h <;> simp [stage2Work, h]
  · intro q u hu
    rcases hq : q.link with _ | l
    · simp [stage2Work, hq] at hu
    · rcases l with _ | l
      · simp [stage2Work, hq] at hu
      · by_cases hl : l = ""
        · simp [stage2Work, hq, hl] at hu
        · simp [stage2Work, hq, hl] at hu
          subst hu
          exact ⟨rfl, hl⟩

/-- Witness for C10 at a concrete linkless candidate. -/
theorem stage2_guard_no_empty_call_witness :
    stage2Work (fun _ => { success := true }) { name := "X", link := some none } = (noLinkRes, []) ∧
    noLinkRes = { success := false, data := none, error := some "No link available", url := none } ∧
    ∀ q : ProductItem, ∀ u, u ∈ (stage2Work (fun _ => ({ success := true } : WRes)) q).2 →
      q.link = some (some u) ∧ u ≠ "" :=
  stage2_guard_no_empty_call (fun _ => { success := true }) { name := "X", link := some none }
    (Or.inr (Or.inl rfl))

/- ### C1: one result per input idea, in input order -/

/-- C1.  For every input idea list, as long as no link resolution raises (a
raise aborts the stage-1 loop, see C2), the pipeline yields a result list
with exactly one entry per input idea, in the input order, each entry keeping
its idea's name; no entry is dropped by either stage regardless of completion
orders, collaborator behavior, or per-candidate failures. -/
theorem pipeline_one_result_per_idea (ideas : List RawIdea)
    (res1 : Nat → Except PyErr (Option String)) (extCollab : String → WRes)
    (raise2 : Nat → Option String) (ord1 ord2 : List Nat)
    (h : ∀ i ∈ ord1, ∃ v, res1 i = .ok v) :
    ∃ final, runPipeline ideas res1 extCollab raise2 ord1 ord2 = .ok final ∧
      final.length = ideas.length ∧
      ∀ j, (final.get? j).map ProductItem.name
        = (ideas.get? j).map (fun d => d.name.getD "") := by
  obtain ⟨ps1, hrun, hlen, hnames⟩ := stage1Loop_ok res1 ord1 (mkProducts ideas) h
  refine ⟨stage2Loop extCollab raise2 ps1 ord2, ?_, ?_, ?_⟩
  · simp [runPipeline, hrun]
  · rw [stage2Loop_length, hlen, mkProducts, List.length_map]
  · intro j
    rw [stage2Loop_names, hnames j, mkProducts, List.get?_map]
    cases ideas.get? j <;> rfl

/-- Witness for C1: two ideas (one of which resolves to no link), shuffled
stage-2 completion order, a collaborator that fails on everything. -/
theorem pipeline_one_result_per_idea_witness :
    (∀ i ∈ [0, 1], ∃ v,
      (fun i => if i = 0 then Except.ok (some "https://a.in/p") else Except.ok none :
        Nat → Except PyErr (Option String)) i = .ok v) ∧
    ∃ final, runPipeline [⟨some "A"⟩, ⟨none⟩]
        (fun i => if i = 0 then .ok (some "https://a.in/p") else .ok none)
        (fun _ => { success := false }) (fun _ => none) [0, 1] [1, 0] = .ok final ∧
      final.length = ([⟨some "A"⟩, ⟨none⟩] : List RawIdea).length ∧
      ∀ j, (final.get? j).map ProductItem.name
        = (([⟨some "A"⟩, ⟨none⟩] : List RawIdea).get? j).map (fun d => d.name.getD "") := by
  have h : ∀ i ∈ [0, 1], ∃ v,
      (fun i => if i = 0 then Except.ok (some "https://a.in/p") else Except.ok none :
        Nat → Except PyErr (Option String)) i = .ok v := by
    intro i hi
    by_cases h0 : i = 0 <;> simp [h0]
  exact ⟨h, pipeline_one_result_per_idea [⟨some "A"⟩, ⟨none⟩] _ _ _ [0, 1] [1, 0] h⟩

/- ### C2: one resolver failure aborts the batch (claim corrected) -/

/-- C2 counterexample.  Two candidates, only the first one's link resolution
raises: the stage-1 collection loop calls `future.result()` with no
`try`/`except`, so the exception is not caught and not paired with the
candidate — the whole batch run aborts with it and yields no result list at
all, refuting "the pool and the batch are never aborted by the one
failure". -/
theorem one_resolver_failure_aborts_batch :
    runPipeline [⟨some "A"⟩, ⟨some "B"⟩]
      (fun i => if i = 0 then .error (.exc "boom") else .ok (some "https://x.in"))
      (fun _ => { success := false }) (fun _ => none) [0, 1] [0, 1]
      = .error (.exc "boom") := rfl

/-- C2 (amended).  A failing link resolution is not caught: once the stage-1
collection loop reaches the failing candidate (every candidate before it in
completion order having succeeded), `future.result()` re-raises the exception
and stage 1 — hence the batch — aborts with it; the remaining candidates'
results are never collected. -/
theorem stage1_failure_uncaught (res : Nat → Except PyErr (Option String))
    (ps : List ProductItem) (pre post : List Nat) (i : Nat) (e : PyErr)
    (hpre : ∀ j ∈ pre, ∃ v, res j = .ok v) (hi : res i = .error e) :
    stage1Loop res ps (pre ++ i :: post) = .error e := by
  induction pre generalizing ps with
  | nil => simp [stage1Loop, hi]
  | cons a as ih =>
    obtain ⟨v, hv⟩ := hpre a (List.mem_cons_self a as)
    have has : ∀ j ∈ as, ∃ v, res j = .ok v :=
      fun j hj => hpre j (List.mem_cons_of_mem a hj)
    simpa [stage1Loop, hv] using ih _ has

/-- Witness for the amended C2: candidate 1 resolves first and succeeds,
candidate 0 then raises, aborting the loop. -/
theorem stage1_failure_uncaught_witness :
    (∀ j ∈ [1], ∃ v,
      (fun i => if i = 1 then Except.ok (some "https://x.in") else Except.error (.exc "boom") :
        Nat → Except PyErr (Option String)) j = .ok v) ∧
    stage1Loop (fun i => if i = 1 then .ok (some "https://x.in") else .error (.exc "boom"))
      (mkProducts [⟨some "A"⟩, ⟨some "B"⟩]) ([1] ++ 0 :: []) = .error (.exc "boom") := by
  have h : ∀ j ∈ [1], ∃ v,
      (fun i => if i = 1 then Except.ok (some "https://x.in") else Except.error (.exc "boom") :
        Nat → Except PyErr (Option String)) j = .ok v := by
    intro j hj
    simp at hj
    subst hj
    exact ⟨some "https://x.in", rfl⟩
  exact ⟨h, stage1_failure_uncaught _ _ [1] [] 0 (.exc "boom") h rfl⟩

/- ### C3: the no-link reason is discarded (claim corrected) -/

/-- C3 counterexample.  Candidate "A" resolves to no link, candidate "B"
resolves but its extraction collaborator errors: both end the pipeline with
`metadata = None`.  The no-link candidate's final metadata is not the
"no link available" failure (that reason was discarded by the collection
loop), and it is identical to the collaborator-error candidate's, so callers
cannot distinguish the two. -/
theorem no_link_final_metadata_is_none :
    runPipeline [⟨some "A"⟩, ⟨some "B"⟩]
      (fun i => if i = 0 then .ok none else .ok (some "https://y.in"))
      (fun url => extract_product_data url (.res false (.ok .jnull) "net down"))
      (fun _ => none) [0, 1] [0, 1]
      = .ok [⟨"A", some none, some none⟩, ⟨"B", some (some "https://y.in"), some none⟩] ∧
    (some (none : Option MetaVal) ≠ some (some (.failDict "No link available" none))) := by
  exact ⟨rfl, by simp⟩

/-- C3 (amended).  For a candidate whose link is absent (key missing, `None`,
or empty), extraction is never attempted: the submit lambda makes no external
call and yields the literal no-link failure dict.  But the collection loop
stores `None` as the candidate's final metadata, discarding that reason, and
any collaborator failure yields the same final metadata `None`, so the result
does not let callers distinguish the two cases. -/
theorem no_link_skips_extraction_reason_dropped (extCollab : String → WRes)
    (p : ProductItem) (w : WRes)
    (h : p.link = none ∨ p.link = some none ∨ p.link = some (some ""))
    (hw : w.success = false) :
    (stage2Work extCollab p).2 = [] ∧
    (stage2Work extCollab p).1 = noLinkRes ∧
    collectMeta p (.val (stage2Work extCollab p).1) = { p with metadata := some none } ∧
    collectMeta p (.val w) = { p with metadata := some none } := by
  have h1 : stage2Work extCollab p = (noLinkRes, []) := by
    rcases h with h | h | h <;> simp [stage2Work, h]
  refine ⟨by rw [h1], by rw [h1], ?_, ?_⟩
  · rw [h1]
    rfl
  · simp [collectMeta, hw]

/-- Witness for the amended C3 at a concrete no-link candidate and a concrete
collaborator failure. -/
theorem no_link_skips_extraction_reason_dropped_witness :
    ((⟨"Obscure", some none, none⟩ : ProductItem).link = none ∨
      (⟨"Obscure", some none, none⟩ : ProductItem).link = some none ∨
      (⟨"Obscure", some none, none⟩ : ProductItem).link = some (some "")) ∧
    (({ success := false, error := some "Crawling failed: x" } : WRes).success = false) ∧
    ((stage2Work (fun _ => { success := true }) ⟨"Obscure", some none, none⟩).2 = [] ∧
     (stage2Work (fun _ => { success := true }) ⟨"Obscure", some none, none⟩).1 = noLinkRes ∧
     collectMeta ⟨"Obscure", some none, none⟩
       (.val (stage2Work (fun _ => { success := true }) ⟨"Obscure", some none, none⟩).1)
       = { (⟨"Obscure", some none, none⟩ : ProductItem) with metadata := some none } ∧
     collectMeta ⟨"Obscure", some none, none⟩
       (.val { success := false, error := some "Crawling failed: x" })
       = { (⟨"Obscure", some none, none⟩ : ProductItem) with metadata := some none }) :=
  ⟨Or.inr (Or.inl rfl), rfl,
    no_link_skips_extraction_reason_dropped (fun _ => { success := true })
      ⟨"Obscure", some none, none⟩ { success := false, error := some "Crawling failed: x" }
      (Or.inr (Or.inl rfl)) rfl⟩

/- ### C5: the batch-fatal gates (claim corrected) -/

/-- C5 counterexample.  The idea-generation stage succeeds, returning raw
content that merely contains the substring `"error"`; the gate
`"error" in perplexity_recommendations` is substring containment on that
string, so the orchestrator aborts although no stage reported an error —
refuting the "only if" direction.  The third conjunct refutes the second
clause: after the candidate list exists, a single candidate's stage-1
failure still aborts the batch. -/
theorem success_mentioning_error_aborts :
    perplexityReportsError (.content "low error rate in reviews") = false ∧
    preflightAborts ⟨[], .content "low error rate in reviews", []⟩ = true ∧
    stage1Loop (fun _ => .error (.exc "E")) [{ name := "A" }] [0] = .error (.exc "E") :=
  ⟨rfl, by decide, rfl⟩

/-- C5 (amended).  The orchestrator aborts before candidate work begins if
and only if the parse dict has an `"error"` key, the idea-generation stage
returned an error dict, its successful raw string contains the substring
`"error"`, or the format dict has an `"error"` key; a successful generation
mentioning "error" therefore also aborts.  And once the candidate list
exists, a candidate's uncaught stage-1 failure can still abort the batch
(second conjunct); only stage-2 failures cannot. -/
theorem preflight_abort_condition :
    (∀ r : PreStageResults, preflightAborts r = true ↔
      (hasKey "error" r.parseRes = true ∨ perplexityReportsError r.perplexityRes = true ∨
        (∃ s, r.perplexityRes = .content s ∧ pyInStr "error" s = true) ∨
        hasKey "error" r.formatRes = true)) ∧
    stage1Loop (fun _ => .error (.exc "E")) [{ name := "B" }] [0] = .error (.exc "E") := by
  constructor
  · rintro ⟨pr, gr, fr⟩
    cases gr with
    | content s =>
      simp only [preflightAborts, perplexityAbortCheck, perplexityReportsError,
        Bool.or_eq_true]
      constructor
      · rintro ((h | h) | h)
        · exact Or.inl h
        · exact Or.inr (Or.inr (Or.inl ⟨s, rfl, h⟩))
        · exact Or.inr (Or.inr (Or.inr h))
      · rintro (h | h | ⟨s', hs', h⟩ | h)
        · exact Or.inl (Or.inl h)
        · exact absurd h (by simp)
        · injection hs' with hs'
          subst hs'
          exact Or.inl (Or.inr h)
        · exact Or.inr h
    | errDict m =>
      simp [preflightAborts, perplexityAbortCheck, perplexityReportsError]
  · rfl

/- ### C6: no schema validation on the success path (claim corrected) -/

/-- C6 counterexample.  A successful extraction whose raw object has only a
`"product"` field is returned exactly as parsed: the defaulted field
`"valentines"` is not filled in, the required field `"brand"` is missing yet
the record is not invalidated — there is no validation against the `Product`
schema (the spec-modelled validation would have added the default, last
conjunct). -/
theorem success_path_skips_validation :
    extract_product_data "https://u.in"
      (.res true (.ok (.jlist [.jobj [("product", .jstr "X")]])) "")
      = { success := true, data := some (.jobj [("product", .jstr "X")]),
          url := some "https://u.in" } ∧
    jlookup "valentines" [("product", .jstr "X")] = none ∧
    "valentines" ∈ productDefaultedFields ∧
    jlookup "brand" [("product", .jstr "X")] = none ∧
    "brand" ∈ productRequiredFields ∧
    hasKey "valentines" (specValidateRecord [("product", .jstr "X")]) = true :=
  ⟨rfl, rfl, by decide, rfl, by decide, by decide⟩

/-- C6 (amended).  On a successful extraction the parsed JSON is returned
as-is — the first element when it is a list, the object itself otherwise —
with no schema validation: a field absent from the raw object is likewise
absent from the returned record (defaults exist only in the Pydantic schema
text sent as guidance and in the display layer's `dict.get` calls). -/
theorem extraction_returns_raw_unvalidated (url m k : String) (x : JVal)
    (rest : List JVal) (fs : List (String × JVal)) (hk : jlookup k fs = none) :
    extract_product_data url (.res true (.ok (.jlist (x :: rest))) m)
      = { success := true, data := some x, url := some url } ∧
    extract_product_data url (.res true (.ok (.jobj fs)) m)
      = { success := true, data := some (.jobj fs), url := some url } ∧
    getRawField (extract_product_data url (.res true (.ok (.jobj fs)) m)) k = none := by
  refine ⟨rfl, rfl, ?_⟩
  simpa [getRawField, extract_product_data] using hk

/-- Witness for the amended C6: a raw object lacking `"brand"`. -/
theorem extraction_returns_raw_unvalidated_witness :
    jlookup "brand" [("product", JVal.jstr "X")] = none ∧
    (extract_product_data "https://u.in"
        (.res true (.ok (.jlist [.jobj [("product", .jstr "X")], .jnull])) "net")
        = { success := true, data := some (.jobj [("product", .jstr "X")]),
            url := some "https://u.in" } ∧
      extract_product_data "https://u.in"
        (.res true (.ok (.jobj [("product", .jstr "X")])) "net")
        = { success := true, data := some (.jobj [("product", .jstr "X")]),
            url := some "https://u.in" } ∧
      getRawField (extract_product_data "https://u.in"
        (.res true (.ok (.jobj [("product", .jstr "X")])) "net")) "brand" = none) :=
  ⟨rfl, extraction_returns_raw_unvalidated "https://u.in" "net" "brand"
    (.jobj [("product", .jstr "X")]) [.jnull] [("product", .jstr "X")] rfl⟩

/- ### C7: extraction never raises, but the reason is dropped (corrected) -/

/-- C7 counterexample (the spec's Scenario C).  One idea, the search returns
a URL, the extraction collaborator throws: `extract_product_sync` returns a
failure value carrying the error text and never raises, and the batch
completes with the link set — but the candidate's final metadata is `None`,
not a failure with the extraction error text (that text was discarded). -/
theorem collaborator_throw_metadata_none :
    extract_product_sync "https://z.in" (.raise .otherErr "net burst")
      = { success := false, data := none, error := some "Extraction error: net burst",
          url := some "https://z.in" } ∧
    runPipeline [⟨some "Z"⟩] (fun _ => .ok (some "https://z.in"))
      (fun url => extract_product_sync url (.raise .otherErr "net burst"))
      (fun _ => none) [0] [0]
      = .ok [⟨"Z", some (some "https://z.in"), some none⟩] ∧
    (some (none : Option MetaVal))
      ≠ some (some (.failDict "Extraction error: net burst" (some "https://z.in"))) :=
  ⟨rfl, rfl, by simp⟩

/-- C7 (amended).  The extraction call never raises: every collaborator
exception is converted inside `extract_product_data` to a failure dict whose
`"error"` is a reason string.  The stage-2 collection loop, however, maps
every returned failure dict to final metadata `None` — link untouched, batch
still completing — so the extraction error text does not reach the result. -/
theorem extract_never_raises_reason_dropped (url m : String) (k : ExcKind)
    (p : ProductItem) (w : WRes) (hw : w.success = false) :
    (extract_product_sync url (.raise k m)).success = false ∧
    (∃ msg, (extract_product_sync url (.raise k m)).error = some msg) ∧
    collectMeta p (.val w) = { p with metadata := some none } ∧
    (collectMeta p (.val w)).link = p.link := by
  refine ⟨?_, ?_, ?_, ?_⟩
  · cases k <;> rfl
  · cases k
    · exact ⟨"Missing dependencies: " ++ m, rfl⟩
    · exact ⟨"Extraction error: " ++ m, rfl⟩
  · simp [collectMeta, hw]
  · simp [collectMeta, hw]

/-- Witness for the amended C7 at a concrete throwing collaborator. -/
theorem extract_never_raises_reason_dropped_witness :
    (({ success := false, error := some "Extraction error: boom" } : WRes).success = false) ∧
    ((extract_product_sync "https://z.in" (.raise .otherErr "boom")).success = false ∧
      (∃ msg, (extract_product_sync "https://z.in" (.raise .otherErr "boom")).error = some msg) ∧
      collectMeta ⟨"Z", some (some "https://z.in"), none⟩
        (.val { success := false, error := some "Extraction error: boom" })
        = { (⟨"Z", some (some "https://z.in"), none⟩ : ProductItem) with metadata := some none } ∧
      (collectMeta ⟨"Z", some (some "https://z.in"), none⟩
        (.val { success := false, error := some "Extraction error: boom" })).link
        = (⟨"Z", some (some "https://z.in"), none⟩ : ProductItem).link) :=
  ⟨rfl, extract_never_raises_reason_dropped "https://z.in" "boom" .otherErr
    ⟨"Z", some (some "https://z.in"), none⟩
    { success := false, error := some "Extraction error: boom" } rfl⟩

/- ### C9: price normalization (claim corrected) -/

/-- C9 counterexample.  The malformed price string `"inf"` parses as an
infinite float, so `int()` raises `OverflowError`, which the inner
`except (ValueError, TypeError)` does not catch: instead of a 0/0 range the
exception reaches the outer handler, `format_perplexity_output` returns an
error dict, and the whole batch fails at the `"error"` gate. -/
theorem inf_price_fails_whole_batch :
    normalizeRange (some (.pstr "inf")) (some (.pnum 2000)) = .error .overflowErr ∧
    formatPriceStage [⟨some (.pstr "inf"), some (.pnum 2000)⟩]
      = .error "Unexpected error: cannot convert float infinity to integer" ∧
    hasKey "error"
      [("error", .jstr "Unexpected error: cannot convert float infinity to integer")] = true :=
  ⟨rfl, rfl, rfl⟩

set_option maxRecDepth 16384 in
/-- C9 (amended).  Price bounds are coerced through
`int(float(str(x).replace('₹', '').replace(',', '').strip()))`: a string whose
stripped form parses as a finite float becomes its truncation (currency
symbols and commas removed), a string whose stripped form fails to parse
(`ValueError`) zeroes both bounds instead of failing the batch — but a
malformed price string that parses to an infinite float (such as `"inf"`)
raises `OverflowError` past the inner handler and fails the whole batch. -/
theorem price_normalization_behavior (s t u : String) (q : ℚ)
    (mn mx : Option PriceVal) (a : Int)
    (hq : pyFloatOfString (stripPriceChars s) = .ok (.finite q))
    (ht : pyFloatOfString (stripPriceChars t) = .error ())
    (ha : coercePrice mn = .ok a)
    (hu : pyFloatOfString (stripPriceChars u) = .ok .posInf) :
    coercePrice (some (.pstr s)) = .ok (pyTrunc q) ∧
    normalizeRange (some (.pstr t)) mx = .ok (0, 0) ∧
    normalizeRange mn (some (.pstr u)) = .error .overflowErr ∧
    formatPriceStage [⟨mn, some (.pstr u)⟩]
      = .error "Unexpected error: cannot convert float infinity to integer" ∧
    coercePrice (some (.pstr "₹1,500")) = .ok 1500 := by
  have hs : coercePrice (some (.pstr s)) = .ok (pyTrunc q) := by
    simp [coercePrice, pyStrOfPrice, hq, pyIntOfFloat]
  have htt : coercePrice (some (.pstr t)) = .error .valueErr := by
    simp [coercePrice, pyStrOfPrice, ht]
  have huu : coercePrice (some (.pstr u)) = .error .overflowErr := by
    simp [coercePrice, pyStrOfPrice, hu, pyIntOfFloat]
  refine ⟨hs, ?_, ?_, ?_, rfl⟩
  · simp [normalizeRange, htt]
  · simp [normalizeRange, ha, huu]
  · simp [formatPricesLoop, formatPriceStage, normalizeRange, ha, huu, pyExcMsg]

set_option maxRecDepth 16384 in
/-- Witness for the amended C9: `"₹2,000"` is coerced to 2000, `"abc"`
zeroes the range, `"inf"` aborts the batch. -/
theorem price_normalization_behavior_witness :
    (pyFloatOfString (stripPriceChars "₹2,000") = .ok (.finite (2000 : ℚ)) ∧
     pyFloatOfString (stripPriceChars "abc") = .error () ∧
     coercePrice (some (.pnum 500)) = .ok 500 ∧
     pyFloatOfString (stripPriceChars "inf") = .ok .posInf) ∧
    (coercePrice (some (.pstr "₹2,000")) = .ok (pyTrunc (2000 : ℚ)) ∧
     normalizeRange (some (.pstr "abc")) (some (.pnum 9)) = .ok (0, 0) ∧
     normalizeRange (some (.pnum 500)) (some (.pstr "inf")) = .error .overflowErr ∧
     formatPriceStage [⟨some (.pnum 500), some (.pstr "inf")⟩]
       = .error "Unexpected error: cannot convert float infinity to integer" ∧
     coercePrice (some (.pstr "₹1,500")) = .ok 1500) :=
  ⟨⟨rfl, rfl, rfl, rfl⟩,
    price_normalization_behavior "₹2,000" "abc" "inf" (2000 : ℚ)
      (some (.pnum 500)) (some (.pnum 9)) 500 rfl rfl rfl rfl⟩

end Gifting
